import Mathlib

set_option autoImplicit false
set_option maxHeartbeats 1000000

/-!
Verification development for the k8s-object-dumper discovery-and-dump
pipeline (internal/pkg/discovery/discovery.go).

The embedding models:
- the fan-out directory sink (dirDumper with its Dump, writeToFile, file and
  Close operations) over an explicit open-file cache (an association list from
  logical path to accumulated file content) and an explicit filesystem fault
  environment (FSEnv) that says which mkdir / create / write / close calls fail;
- the pagination driver (the inner loop of DiscoverObjects together with the
  per-resource skip logic and error accumulation), parameterised over the remote
  list operation and the sink callback;
- groupVersionFromString.

Machine-level side effects (the actual bytes on disk, the remote cluster) are
represented by the fault environment and by an explicit collection-backed model
of the remote list endpoint.
-/

instance {α β : Type} [DecidableEq α] [DecidableEq β] : DecidableEq (Except α β) :=
  fun x y =>
  match x, y with
  | .ok a, .ok b =>
    if h : a = b then .isTrue (by rw [h]) else .isFalse (by simp [h])
  | .error a, .error b =>
    if h : a = b then .isTrue (by rw [h]) else .isFalse (by simp [h])
  | .ok _, .error _ => .isFalse (by simp)
  | .error _, .ok _ => .isFalse (by simp)

/-- One cluster object as the dumper sees it: the extractable kind and
namespace, plus the result of JSON-encoding the object (the encoder is an
external library call, so its outcome is part of the record's data;
an error value models a failed `json.Encoder.Encode`). -/
structure ObjectRecord where
  kind : String
  ns : String
  serialized : Except String String
  deriving DecidableEq, Repr

/-- A page returned by one list call: items plus the continuation token
(`GetContinue()`); the empty token signals end of collection. -/
structure UnstructuredList where
  items : List ObjectRecord
  continueToken : String
  deriving DecidableEq, Repr

/-- Filesystem fault environment: for each path (or parent directory),
whether the corresponding OS call fails and with which error text.
`none` means the call succeeds. -/
structure FSEnv where
  mkdirErr : String → Option String
  createErr : String → Option String
  writeErr : String → Option String
  closeErr : String → Option String

/-- The environment in which every filesystem operation succeeds. -/
def envOK : FSEnv :=
  ⟨fun _ => none, fun _ => none, fun _ => none, fun _ => none⟩

/-- Lookup in the open-file cache (Go: `d.openFiles[path]`). -/
def lookupFile : List (String × String) → String → Option String
  | [], _ => none
  | (k, v) :: rest, p => if k = p then some v else lookupFile rest p

/-- Append bytes to the cached file bound to `p` (Go: `f.Write(b)` on the
handle associated with `p`); no-op when `p` is not cached. -/
def appendAt : List (String × String) → String → String → List (String × String)
  | [], _, _ => []
  | (k, v) :: rest, p, b =>
    if k = p then (k, v ++ b) :: rest else (k, v) :: appendAt rest p b

/-- The paths of all open handles in the cache. -/
def openPaths (st : List (String × String)) : List String :=
  st.map Prod.fst

/-- Embeds `strings.Split(s, "/")` on the character list: the segments of the
input between occurrences of '/'; the empty input yields one empty segment,
exactly as in Go. Structural recursion, so it evaluates inside the kernel.
The catch-all branch of the inner match is unreachable (the split of the
tail is never empty). -/
def splitSlash : List Char → List (List Char)
  | [] => [[]]
  | c :: rest =>
    match splitSlash rest with
    | [] => [[c]]
    | h :: t => if c = '/' then [] :: h :: t else (c :: h) :: t

/-- `strings.Split(s, "/")` as a list of strings. -/
def slashSegments (s : String) : List String :=
  (splitSlash s.data).map String.mk

/-- Parent directory of a path (Go: `filepath.Dir`), for slash-separated
paths: everything before the last separator. -/
def parentDir (p : String) : String :=
  String.intercalate "/" ((slashSegments p).dropLast)

/-- Destination path `<dir>/objects-<kind>.json`. -/
def objectsPath (dir kind : String) : String :=
  dir ++ "/objects-" ++ kind ++ ".json"

/-- Destination path `<dir>/split/<namespace>/__all__.json`. -/
def nsAllPath (dir ns : String) : String :=
  dir ++ "/split/" ++ ns ++ "/__all__.json"

/-- Destination path `<dir>/split/<namespace>/<kind>.json`. -/
def nsKindPath (dir ns kind : String) : String :=
  dir ++ "/split/" ++ ns ++ "/" ++ kind ++ ".json"

/-- The destinations a record is routed to: always `objects-<kind>`, and for
namespaced records additionally `split/<ns>/__all__` and `split/<ns>/<kind>`. -/
def destPaths (dir : String) (o : ObjectRecord) : List String :=
  if o.ns = "" then [objectsPath dir o.kind]
  else [objectsPath dir o.kind, nsAllPath dir o.ns, nsKindPath dir o.ns o.kind]

namespace dirDumper

/-- Embeds `dirDumper.file`: return the cached handle for `path` if present;
otherwise `os.MkdirAll(filepath.Dir(path))`, then `os.Create(path)`, caching
the fresh (empty) handle. On success the returned cache contains a handle for
`path`. -/
def file (env : FSEnv) (st : List (String × String)) (path : String) :
    Except String (List (String × String)) :=
  match lookupFile st path with
  | some _ => .ok st
  | none =>
    match env.mkdirErr (parentDir path) with
    | some e =>
      .error ("failed to create directory \"" ++ parentDir path ++ "\": " ++ e)
    | none =>
      match env.createErr path with
      | some e => .error ("failed to create file \"" ++ path ++ "\": " ++ e)
      | none => .ok (st ++ [(path, "")])

/-- Embeds `dirDumper.writeToFile`: resolve the handle through `file`, then
write `b` to it. A failed write leaves the freshly cached handle in place and
the content unchanged. -/
def writeToFile (env : FSEnv) (st : List (String × String)) (path b : String) :
    List (String × String) × Option String :=
  match file env st path with
  | .error e => (st, some ("failed to open file for copying: " ++ e))
  | .ok st1 =>
    match env.writeErr path with
    | some e => (st1, some ("failed to copy to file: " ++ e))
    | none => (appendAt st1 path b, none)

/-- One iteration of the loop body of `dirDumper.Dump` for a single object:
encode it, write it to `objects-<kind>`, and, when namespaced, also to
`split/<ns>/__all__` and `split/<ns>/<kind>`; collect the errors of the
failed steps in order. -/
def dumpItem (env : FSEnv) (dir : String) (st : List (String × String))
    (o : ObjectRecord) : List (String × String) × List String :=
  match o.serialized with
  | .error e => (st, ["failed to encode object: " ++ e])
  | .ok p =>
    let w1 := writeToFile env st (objectsPath dir o.kind) p
    if o.ns = "" then (w1.1, w1.2.toList)
    else
      let w2 := writeToFile env w1.1 (nsAllPath dir o.ns) p
      let w3 := writeToFile env w2.1 (nsKindPath dir o.ns o.kind) p
      (w3.1, w1.2.toList ++ w2.2.toList ++ w3.2.toList)

/-- Embeds `dirDumper.Dump`: process every item of the page in order,
threading the open-file cache and accumulating all errors
(`multierr.Combine` of the error slice is the empty list iff no error). -/
def Dump (env : FSEnv) (dir : String) :
    List (String × String) → List ObjectRecord →
    List (String × String) × List String
  | st, [] => (st, [])
  | st, o :: os =>
    let a := dumpItem env dir st o
    let b := Dump env dir a.1 os
    (b.1, a.2 ++ b.2)

/-- Embeds `dirDumper.Close`: close every cached handle, returning the list
of paths whose handles were released and the list of close failures. -/
def Close (env : FSEnv) : List (String × String) → List String × List String
  | [] => ([], [])
  | (path, _) :: rest =>
    let r := Close env rest
    match env.closeErr path with
    | some e => (path :: r.1, e :: r.2)
    | none => (path :: r.1, r.2)

end dirDumper

/-- `multierr.Combine`: `nil` for an empty error slice, otherwise one combined
error value. -/
def combineErrs (l : List String) : Option String :=
  match l with
  | [] => none
  | es => some (String.intercalate "; " es)

/-- A named API resource within a group/version: its plural name, kind and
supported verbs. -/
structure APIResource where
  name : String
  kind : String
  verbs : List String
  deriving DecidableEq, Repr

/-- One entry of the ServerPreferredResources result: a group/version string
and its API resources. -/
structure APIResourceList where
  groupVersion : String
  apiResources : List APIResource
  deriving DecidableEq, Repr

/-- A parsed group/version pair (schema.GroupVersion). -/
structure GroupVersion where
  group : String
  version : String
  deriving DecidableEq, Repr

/-- A group/version/resource triple (schema.GroupVersionResource). -/
structure GroupVersionResource where
  group : String
  version : String
  resource : String
  deriving DecidableEq, Repr

/-- schema.GroupVersion.WithResource. -/
def GroupVersion.withResource (gv : GroupVersion) (r : String) :
    GroupVersionResource :=
  ⟨gv.group, gv.version, r⟩

/-- Embeds `groupVersionFromString`: split on "/"; one segment is a bare
version with empty group, otherwise the first segment is the group and the
second the version. `strings.Split` never returns an empty slice, so the
final catch-all branch is unreachable. -/
def groupVersionFromString (s : String) : GroupVersion :=
  match slashSegments s with
  | [v] => ⟨"", v⟩
  | g :: v :: _ => ⟨g, v⟩
  | [] => ⟨"", ""⟩

/-- schema.GroupVersionResource.String(): `<group>/<version>, Resource=<resource>`. -/
def gvrToString (r : GroupVersionResource) : String :=
  r.group ++ "/" ++ r.version ++ ", Resource=" ++ r.resource

/-- Observable actions of the pagination driver: issuing a remote list call
with a given continuation cursor, and handing a page to the sink callback. -/
inductive DiscoveryEvent where
  | listCall (cursor : String)
  | sinkCall (page : UnstructuredList)
  deriving DecidableEq, Repr

/-- The error contribution of one sink invocation (Go: the
`failed to dump %s: %w` append when `cb` returns non-nil). -/
def dumpErrs (res : GroupVersionResource) : Except String Unit → List String
  | .ok _ => []
  | .error e => ["failed to dump " ++ gvrToString res ++ ": " ++ e]

/-- Embeds the inner pagination loop of `DiscoverObjects` (the unbounded
`for` loop), with an explicit fuel bound standing for the unbounded
iteration: issue a list call with the current cursor; on failure record the
error and stop; on success hand the page to the sink (recording a sink
failure without stopping) and continue with the returned cursor unless it is
empty. Returns the event trace and the accumulated errors. -/
def paginateLoop
    (lister : GroupVersionResource → Nat → String → Except String UnstructuredList)
    (cb : UnstructuredList → Except String Unit)
    (res : GroupVersionResource) (batchSize : Nat) :
    Nat → String → List DiscoveryEvent × List String
  | 0, _ => ([], [])
  | fuel + 1, cursor =>
    match lister res batchSize cursor with
    | .error e =>
      ([.listCall cursor], ["failed to list " ++ gvrToString res ++ ": " ++ e])
    | .ok l =>
      if l.continueToken = "" then
        ([.listCall cursor, .sinkCall l], dumpErrs res (cb l))
      else
        let r := paginateLoop lister cb res batchSize fuel l.continueToken
        (.listCall cursor :: .sinkCall l :: r.1, dumpErrs res (cb l) ++ r.2)

/-- Embeds the per-resource body of the double loop of `DiscoverObjects`:
skip (with a log line, no error, no list call) when the verb set lacks
"list", otherwise run the pagination loop from the empty cursor. Returns
(events, log lines, errors). -/
def perType
    (lister : GroupVersionResource → Nat → String → Except String UnstructuredList)
    (cb : UnstructuredList → Except String Unit)
    (batchSize fuel : Nat) (gv : String) (r : APIResource) :
    List DiscoveryEvent × List String × List String :=
  let res := (groupVersionFromString gv).withResource r.name
  if "list" ∈ r.verbs then
    let pr := paginateLoop lister cb res batchSize fuel ""
    (pr.1, [], pr.2)
  else
    ([], ["skipping " ++ gvrToString res ++ ": no list verb"], [])

/-- Runs `perType` over a flattened list of (groupVersion, resource) pairs,
concatenating events, log lines and errors in order. -/
def runTypes
    (lister : GroupVersionResource → Nat → String → Except String UnstructuredList)
    (cb : UnstructuredList → Except String Unit) (batchSize fuel : Nat) :
    List (String × APIResource) → List DiscoveryEvent × List String × List String
  | [] => ([], [], [])
  | t :: ts =>
    let x := perType lister cb batchSize fuel t.1 t.2
    let y := runTypes lister cb batchSize fuel ts
    (x.1 ++ y.1, x.2.1 ++ y.2.1, x.2.2 ++ y.2.2)

/-- The double loop of `DiscoverObjects`, flattened: every resource of every
group/version entry, in order. -/
def allTypes (sprl : List APIResourceList) : List (String × APIResource) :=
  (sprl.map (fun re => re.apiResources.map (fun r => (re.groupVersion, r)))).flatten

/-- The informational listing `DiscoverObjects` prints before dumping
(one line per group/version, one indented line per kind). -/
def discoveredLog (sprl : List APIResourceList) : List String :=
  "Discovered resources:"
    :: (sprl.map
          (fun re => re.groupVersion :: re.apiResources.map (fun r => "   " ++ r.kind))).flatten

/-- Embeds `DiscoverObjects` after the clients and the
ServerPreferredResources result have been obtained (their fatal precondition
failures abort before this loop): returns the event trace, the diagnostic
log and the combined error (`multierr.Combine` over all accumulated errors). -/
def discoverObjects
    (lister : GroupVersionResource → Nat → String → Except String UnstructuredList)
    (cb : UnstructuredList → Except String Unit)
    (sprl : List APIResourceList) (batchSize fuel : Nat) :
    List DiscoveryEvent × List String × Option String :=
  let core := runTypes lister cb batchSize fuel (allTypes sprl)
  (core.1, discoveredLog sprl ++ core.2.1, combineErrs core.2.2)

/-- Continuation cursor encoding used by the collection-backed model of the
remote list endpoint: the cursor reached after `i` items is a string of
length `i`, so the initial cursor (index 0) is the empty string. -/
def encodeCursor (i : Nat) : String :=
  String.mk (List.replicate i 'c')

/-- Model of the remote list endpoint backed by a fixed collection, following
the Kubernetes list contract at the interface boundary: a call with cursor
position `i` and limit `B` returns the next `B` items starting at `i` and a
non-empty continuation token exactly when items remain beyond them. -/
def serveCollection (objs : List ObjectRecord) (batchSize : Nat) (c : String) :
    Except String UnstructuredList :=
  let start := c.length
  .ok ⟨(objs.drop start).take batchSize,
       if start + batchSize < objs.length then encodeCursor (start + batchSize)
       else ""⟩

/-- Number of list calls in an event trace. -/
def listCallCount : List DiscoveryEvent → Nat
  | [] => 0
  | .listCall _ :: r => listCallCount r + 1
  | .sinkCall _ :: r => listCallCount r

/-- The pages handed to the sink, in order, in an event trace. -/
def sinkPages : List DiscoveryEvent → List UnstructuredList
  | [] => []
  | .sinkCall l :: r => l :: sinkPages r
  | .listCall _ :: r => sinkPages r

/-- Ceiling division, used to state the page-count property. -/
def ceilDiv (a b : Nat) : Nat :=
  (a + b - 1) / b

/-- Concrete test fixture: a namespaced Pod record. -/
def wPod : ObjectRecord :=
  ⟨"Pod", "ns1", .ok "P"⟩

/-- Concrete test fixture: a second namespaced record in the same page. -/
def wSvc : ObjectRecord :=
  ⟨"Service", "ns1", .ok "S"⟩

/-- Concrete test fixture: an environment where only the write to
`d/objects-Pod.json` fails. -/
def wEnvFailObjects : FSEnv :=
  ⟨fun _ => none, fun _ => none,
   fun q => if q = "d/objects-Pod.json" then some "boom1" else none,
   fun _ => none⟩

/-- Concrete test fixture: an environment where only the write to
`d/split/ns1/Pod.json` fails. -/
def wEnvFailSplitKind : FSEnv :=
  ⟨fun _ => none, fun _ => none,
   fun q => if q = "d/split/ns1/Pod.json" then some "boom2" else none,
   fun _ => none⟩

/-! Helper lemmas about the open-file cache. -/

theorem lookupFile_eq_none_iff (st : List (String × String)) (p : String) :
    lookupFile st p = none ↔ p ∉ openPaths st := by
  induction st with
  | nil => simp [lookupFile, openPaths]
  | cons kv rest ih =>
    obtain ⟨k, v⟩ := kv
    by_cases h : k = p
    · subst h
      simp [lookupFile, openPaths]
    · simp [lookupFile, openPaths, h, Ne.symm h] at *
      exact ih

theorem openPaths_append (st1 st2 : List (String × String)) :
    openPaths (st1 ++ st2) = openPaths st1 ++ openPaths st2 := by
  simp [openPaths]

theorem openPaths_appendAt (st : List (String × String)) (p b : String) :
    openPaths (appendAt st p b) = openPaths st := by
  induction st with
  | nil => simp [appendAt]
  | cons kv rest ih =>
    obtain ⟨k, v⟩ := kv
    by_cases h : k = p <;> simp [appendAt, openPaths, h] at * <;> exact ih

theorem lookupFile_appendAt_self (st : List (String × String)) (p b : String) :
    lookupFile (appendAt st p b) p = (lookupFile st p).map (fun c => c ++ b) := by
  induction st with
  | nil => simp [appendAt, lookupFile]
  | cons kv rest ih =>
    obtain ⟨k, v⟩ := kv
    by_cases h : k = p <;> simp [appendAt, lookupFile, h] <;> exact ih

theorem lookupFile_appendAt_ne (st : List (String × String)) (p b q : String)
    (h : p ≠ q) :
    lookupFile (appendAt st p b) q = lookupFile st q := by
  induction st with
  | nil => simp [appendAt]
  | cons kv rest ih =>
    obtain ⟨k, v⟩ := kv
    by_cases hk : k = p
    · subst hk
      simp [appendAt, lookupFile, h]
    · simp only [appendAt, if_neg hk]
      by_cases hq : k = q
      · simp [lookupFile, hq]
      · simp [lookupFile, hq, ih]

namespace dirDumper

theorem file_cached (env : FSEnv) (st : List (String × String)) (path c : String)
    (h : lookupFile st path = some c) : file env st path = .ok st := by
  simp [file, h]

theorem file_fresh_ok (env : FSEnv) (st : List (String × String)) (path : String)
    (h : lookupFile st path = none) (hm : env.mkdirErr (parentDir path) = none)
    (hc : env.createErr path = none) :
    file env st path = .ok (st ++ [(path, "")]) := by
  simp [file, h, hm, hc]

theorem file_ok_paths (env : FSEnv) (st st1 : List (String × String)) (path : String)
    (h : file env st path = .ok st1) :
    openPaths st1 = openPaths st ∨
      (path ∉ openPaths st ∧ openPaths st1 = openPaths st ++ [path]) := by
  unfold file at h
  cases hl : lookupFile st path with
  | some c =>
    rw [hl] at h
    left
    cases h
    rfl
  | none =>
    rw [hl] at h
    cases hm : env.mkdirErr (parentDir path) with
    | some e => rw [hm] at h; cases h
    | none =>
      rw [hm] at h
      cases hc : env.createErr path with
      | some e => rw [hc] at h; cases h
      | none =>
        rw [hc] at h
        cases h
        right
        refine ⟨(lookupFile_eq_none_iff st path).mp hl, ?_⟩
        simp [openPaths]

theorem writeToFile_paths (env : FSEnv) (st : List (String × String)) (path b : String) :
    openPaths (writeToFile env st path b).1 = openPaths st ∨
      (path ∉ openPaths st ∧
        openPaths (writeToFile env st path b).1 = openPaths st ++ [path]) := by
  unfold writeToFile
  cases hf : file env st path with
  | error e => left; rfl
  | ok st1 =>
    cases hw : env.writeErr path with
    | some e =>
      simpa using file_ok_paths env st st1 path hf
    | none =>
      have := file_ok_paths env st st1 path hf
      simpa [openPaths_appendAt] using this

theorem writeToFile_nodup (env : FSEnv) (st : List (String × String)) (path b : String)
    (h : (openPaths st).Nodup) : (openPaths (writeToFile env st path b).1).Nodup := by
  rcases writeToFile_paths env st path b with hp | ⟨hne, hp⟩
  · rw [hp]; exact h
  · rw [hp]
    simp [List.nodup_append, h, hne]

theorem writeToFile_mono (env : FSEnv) (st : List (String × String)) (path b q : String)
    (h : q ∈ openPaths st) : q ∈ openPaths (writeToFile env st path b).1 := by
  rcases writeToFile_paths env st path b with hp | ⟨_, hp⟩ <;> rw [hp]
  · exact h
  · exact List.mem_append_left _ h

theorem dumpItem_nodup (env : FSEnv) (dir : String) (st : List (String × String))
    (o : ObjectRecord) (h : (openPaths st).Nodup) :
    (openPaths (dumpItem env dir st o).1).Nodup := by
  unfold dumpItem
  cases o.serialized with
  | error e => exact h
  | ok p =>
    by_cases hns : o.ns = "" <;>
      simp only [hns, if_true, if_false, reduceIte] <;>
      solve
      | exact writeToFile_nodup _ _ _ _ h
      | exact writeToFile_nodup _ _ _ _ (writeToFile_nodup _ _ _ _ (writeToFile_nodup _ _ _ _ h))

theorem dumpItem_mono (env : FSEnv) (dir : String) (st : List (String × String))
    (o : ObjectRecord) (q : String) (h : q ∈ openPaths st) :
    q ∈ openPaths (dumpItem env dir st o).1 := by
  unfold dumpItem
  cases o.serialized with
  | error e => exact h
  | ok p =>
    by_cases hns : o.ns = "" <;>
      simp only [hns, if_true, if_false, reduceIte] <;>
      solve
      | exact writeToFile_mono _ _ _ _ _ h
      | exact writeToFile_mono _ _ _ _ _ (writeToFile_mono _ _ _ _ _ (writeToFile_mono _ _ _ _ _ h))

theorem Dump_nodup (env : FSEnv) (dir : String) (page : List ObjectRecord)
    (st : List (String × String)) (h : (openPaths st).Nodup) :
    (openPaths (Dump env dir st page).1).Nodup := by
  induction page generalizing st with
  | nil => exact h
  | cons o os ih =>
    simp only [Dump]
    exact ih _ (dumpItem_nodup env dir st o h)

theorem Dump_mono (env : FSEnv) (dir : String) (page : List ObjectRecord)
    (st : List (String × String)) (q : String) (h : q ∈ openPaths st) :
    q ∈ openPaths (Dump env dir st page).1 := by
  induction page generalizing st with
  | nil => exact h
  | cons o os ih =>
    simp only [Dump]
    exact ih _ (dumpItem_mono env dir st o q h)

theorem Close_released (env : FSEnv) (st : List (String × String)) :
    (Close env st).1 = openPaths st := by
  induction st with
  | nil => rfl
  | cons kv rest ih =>
    obtain ⟨path, v⟩ := kv
    have ih2 : (Close env rest).1 = List.map Prod.fst rest := by
      simpa [openPaths] using ih
    cases h : env.closeErr path <;> simp [Close, openPaths, h, ih2]

theorem Close_errs (env : FSEnv) (st : List (String × String)) :
    (Close env st).2 = (openPaths st).filterMap env.closeErr := by
  induction st with
  | nil => rfl
  | cons kv rest ih =>
    obtain ⟨path, v⟩ := kv
    have ih2 : (Close env rest).2 = (List.map Prod.fst rest).filterMap env.closeErr := by
      simpa [openPaths] using ih
    cases h : env.closeErr path <;>
      simp [Close, openPaths, h, List.filterMap_cons, ih2]

end dirDumper

theorem combineErrs_eq_none_iff (l : List String) :
    combineErrs l = none ↔ l = [] := by
  cases l <;> simp [combineErrs]

/-- Claim C1: for every record processed by the fan-out sink's Dump that has a
namespace, exactly the three destination paths objects-<kind>,
split/<namespace>/__all__ and split/<namespace>/<kind> receive the record's
serialized form; for a record with empty namespace, exactly the one
destination objects-<kind> receives it. Stated for one Dump call on a fresh
sink in the fault-free environment, assuming the derived destination paths do
not collide as strings. -/
theorem c1_fan_out_destinations (dir : String) (o : ObjectRecord) (p : String)
    (hs : o.serialized = .ok p) (hnd : (destPaths dir o).Nodup) :
    (dirDumper.Dump envOK dir [] [o]).2 = [] ∧
    openPaths (dirDumper.Dump envOK dir [] [o]).1 = destPaths dir o ∧
    (∀ q ∈ destPaths dir o,
      lookupFile (dirDumper.Dump envOK dir [] [o]).1 q = some p) ∧
    (destPaths dir o).length = (if o.ns = "" then 1 else 3) := by
  by_cases hns : o.ns = ""
  · simp [dirDumper.Dump, dirDumper.dumpItem, dirDumper.writeToFile, dirDumper.file,
      destPaths, hs, hns, envOK, lookupFile, appendAt, openPaths]
  · have hd : destPaths dir o =
        [objectsPath dir o.kind, nsAllPath dir o.ns, nsKindPath dir o.ns o.kind] := by
      rw [destPaths, if_neg hns]
    rw [hd] at hnd ⊢
    simp only [List.nodup_cons, List.mem_cons, List.mem_singleton,
      List.not_mem_nil, not_or, List.nodup_nil, and_true] at hnd
    obtain ⟨⟨h12, h13⟩, h23⟩ := hnd
    simp [dirDumper.Dump, dirDumper.dumpItem, dirDumper.writeToFile, dirDumper.file,
      hs, hns, envOK, lookupFile, appendAt, openPaths, h12, h13, h23]

/-- Witness for C1: a namespaced Pod record dumped into directory d. -/
theorem c1_fan_out_destinations_witness :
    ((⟨"Pod", "ns1", .ok "P"⟩ : ObjectRecord).serialized = .ok "P") ∧
    (destPaths "d" ⟨"Pod", "ns1", .ok "P"⟩).Nodup ∧
    ((dirDumper.Dump envOK "d" [] [⟨"Pod", "ns1", .ok "P"⟩]).2 = [] ∧
     openPaths (dirDumper.Dump envOK "d" [] [⟨"Pod", "ns1", .ok "P"⟩]).1 =
       destPaths "d" ⟨"Pod", "ns1", .ok "P"⟩ ∧
     (∀ q ∈ destPaths "d" ⟨"Pod", "ns1", .ok "P"⟩,
       lookupFile (dirDumper.Dump envOK "d" [] [⟨"Pod", "ns1", .ok "P"⟩]).1 q =
         some "P") ∧
     (destPaths "d" ⟨"Pod", "ns1", .ok "P"⟩).length =
       (if (⟨"Pod", "ns1", .ok "P"⟩ : ObjectRecord).ns = "" then 1 else 3)) :=
  ⟨rfl, by decide, c1_fan_out_destinations "d" ⟨"Pod", "ns1", .ok "P"⟩ "P" rfl (by decide)⟩

/-- Claim C3: the destination-handle cache holds at most one open handle per
logical path: a cached path is reused untouched (no filesystem call is made,
so the result does not depend on the fault environment), a first write
creates the handle after creating the parent directory and stores it at the
end of the cache, the set of cached paths only grows under Dump and stays
duplicate-free, and Close releases exactly the cached handles, combining the
release failures into a single error that is absent iff there are none. -/
theorem c3_handle_cache_invariant (env : FSEnv) (dir : String)
    (st : List (String × String)) (path : String) :
    (∀ c, lookupFile st path = some c → dirDumper.file env st path = .ok st) ∧
    (lookupFile st path = none → env.mkdirErr (parentDir path) = none →
      env.createErr path = none →
      dirDumper.file env st path = .ok (st ++ [(path, "")])) ∧
    (∀ page, (openPaths st).Nodup →
      (openPaths (dirDumper.Dump env dir st page).1).Nodup) ∧
    (∀ page q, q ∈ openPaths st → q ∈ openPaths (dirDumper.Dump env dir st page).1) ∧
    (dirDumper.Close env st).1 = openPaths st ∧
    (dirDumper.Close env st).2 = (openPaths st).filterMap env.closeErr ∧
    (combineErrs (dirDumper.Close env st).2 = none ↔
      (openPaths st).filterMap env.closeErr = []) := by
  refine ⟨fun c h => dirDumper.file_cached env st path c h,
    fun h hm hc => dirDumper.file_fresh_ok env st path h hm hc,
    fun page h => dirDumper.Dump_nodup env dir page st h,
    fun page q h => dirDumper.Dump_mono env dir page st q h,
    dirDumper.Close_released env st,
    dirDumper.Close_errs env st, ?_⟩
  rw [dirDumper.Close_errs]
  exact combineErrs_eq_none_iff _

/-- Witness for C3: a one-entry cache in the fault-free environment; the
cached path is reused, a fresh path is created and appended, Dump keeps the
paths duplicate-free, and Close releases exactly the cached path. -/
theorem c3_handle_cache_invariant_witness :
    dirDumper.file envOK [("d/objects-Pod.json", "P")] "d/objects-Pod.json" =
      .ok [("d/objects-Pod.json", "P")] ∧
    dirDumper.file envOK [] "d/objects-Pod.json" =
      .ok [("d/objects-Pod.json", "")] ∧
    (openPaths (dirDumper.Dump envOK "d" [("d/objects-Pod.json", "P")] [wPod]).1).Nodup ∧
    (dirDumper.Close envOK [("d/objects-Pod.json", "P")]).1 =
      openPaths [("d/objects-Pod.json", "P")] :=
  ⟨(c3_handle_cache_invariant envOK "d" [("d/objects-Pod.json", "P")]
      "d/objects-Pod.json").1 "P" (by decide),
   by
    have h := (c3_handle_cache_invariant envOK "d" [] "d/objects-Pod.json").2.1
      (by decide) rfl rfl
    simpa using h,
   (c3_handle_cache_invariant envOK "d" [("d/objects-Pod.json", "P")]
      "d/objects-Pod.json").2.2.1 [wPod] (by decide),
   (c3_handle_cache_invariant envOK "d" [("d/objects-Pod.json", "P")]
      "d/objects-Pod.json").2.2.2.2.1⟩

/-- Claim C2: a failure writing one destination of a record is recorded in the
page's error contribution but does not prevent writing the same record to its
other destinations, nor processing the remaining records of the page. Stated
for both an environment where the first destination (objects-<kind>) is
unwritable and one where the last (split/<ns>/<kind>) is, plus the
decomposition showing that the rest of the page is processed identically
after any per-record outcome. -/
theorem c2_error_isolation (env1 env2 : FSEnv) (dir : String) (o : ObjectRecord)
    (p e1 e2 : String) (rest : List ObjectRecord)
    (hs : o.serialized = .ok p) (hns : ¬ o.ns = "")
    (hnd : (destPaths dir o).Nodup)
    (h1m : ∀ q ∈ destPaths dir o, env1.mkdirErr (parentDir q) = none)
    (h1c : ∀ q ∈ destPaths dir o, env1.createErr q = none)
    (h1w : env1.writeErr (objectsPath dir o.kind) = some e1)
    (h1wa : env1.writeErr (nsAllPath dir o.ns) = none)
    (h1wk : env1.writeErr (nsKindPath dir o.ns o.kind) = none)
    (h2m : ∀ q ∈ destPaths dir o, env2.mkdirErr (parentDir q) = none)
    (h2c : ∀ q ∈ destPaths dir o, env2.createErr q = none)
    (h2w : env2.writeErr (objectsPath dir o.kind) = none)
    (h2wa : env2.writeErr (nsAllPath dir o.ns) = none)
    (h2wk : env2.writeErr (nsKindPath dir o.ns o.kind) = some e2) :
    ((dirDumper.dumpItem env1 dir [] o).2 = ["failed to copy to file: " ++ e1] ∧
      lookupFile (dirDumper.dumpItem env1 dir [] o).1 (nsAllPath dir o.ns) = some p ∧
      lookupFile (dirDumper.dumpItem env1 dir [] o).1 (nsKindPath dir o.ns o.kind) =
        some p) ∧
    ((dirDumper.dumpItem env2 dir [] o).2 = ["failed to copy to file: " ++ e2] ∧
      lookupFile (dirDumper.dumpItem env2 dir [] o).1 (objectsPath dir o.kind) =
        some p ∧
      lookupFile (dirDumper.dumpItem env2 dir [] o).1 (nsAllPath dir o.ns) = some p) ∧
    dirDumper.Dump env1 dir [] (o :: rest) =
      ((dirDumper.Dump env1 dir (dirDumper.dumpItem env1 dir [] o).1 rest).1,
        (dirDumper.dumpItem env1 dir [] o).2 ++
          (dirDumper.Dump env1 dir (dirDumper.dumpItem env1 dir [] o).1 rest).2) := by
  have hd : destPaths dir o =
      [objectsPath dir o.kind, nsAllPath dir o.ns, nsKindPath dir o.ns o.kind] := by
    rw [destPaths, if_neg hns]
  rw [hd] at hnd
  simp only [List.nodup_cons, List.mem_cons, List.mem_singleton,
    List.not_mem_nil, not_or, List.nodup_nil, and_true] at hnd
  obtain ⟨⟨h12, h13⟩, h23⟩ := hnd
  have hmo := h1m (objectsPath dir o.kind) (by rw [hd]; simp)
  have hma := h1m (nsAllPath dir o.ns) (by rw [hd]; simp)
  have hmk := h1m (nsKindPath dir o.ns o.kind) (by rw [hd]; simp)
  have hco := h1c (objectsPath dir o.kind) (by rw [hd]; simp)
  have hca := h1c (nsAllPath dir o.ns) (by rw [hd]; simp)
  have hck := h1c (nsKindPath dir o.ns o.kind) (by rw [hd]; simp)
  have gmo := h2m (objectsPath dir o.kind) (by rw [hd]; simp)
  have gma := h2m (nsAllPath dir o.ns) (by rw [hd]; simp)
  have gmk := h2m (nsKindPath dir o.ns o.kind) (by rw [hd]; simp)
  have gco := h2c (objectsPath dir o.kind) (by rw [hd]; simp)
  have gca := h2c (nsAllPath dir o.ns) (by rw [hd]; simp)
  have gck := h2c (nsKindPath dir o.ns o.kind) (by rw [hd]; simp)
  refine ⟨?_, ?_, rfl⟩
  · simp [dirDumper.dumpItem, dirDumper.writeToFile, dirDumper.file, hs, hns,
      lookupFile, appendAt, h12, h13, h23, hmo, hma, hmk, hco, hca, hck,
      h1w, h1wa, h1wk]
  · simp [dirDumper.dumpItem, dirDumper.writeToFile, dirDumper.file, hs, hns,
      lookupFile, appendAt, h12, h13, h23, gmo, gma, gmk, gco, gca, gck,
      h2w, h2wa, h2wk]

/-- Witness for C2: the Pod record with an unwritable objects-Pod file
(first environment) and an unwritable split/ns1/Pod file (second
environment), with one further record in the page. -/
theorem c2_error_isolation_witness :
    ((dirDumper.dumpItem wEnvFailObjects "d" [] wPod).2 =
        ["failed to copy to file: " ++ "boom1"] ∧
      lookupFile (dirDumper.dumpItem wEnvFailObjects "d" [] wPod).1
        (nsAllPath "d" wPod.ns) = some "P" ∧
      lookupFile (dirDumper.dumpItem wEnvFailObjects "d" [] wPod).1
        (nsKindPath "d" wPod.ns wPod.kind) = some "P") ∧
    ((dirDumper.dumpItem wEnvFailSplitKind "d" [] wPod).2 =
        ["failed to copy to file: " ++ "boom2"] ∧
      lookupFile (dirDumper.dumpItem wEnvFailSplitKind "d" [] wPod).1
        (objectsPath "d" wPod.kind) = some "P" ∧
      lookupFile (dirDumper.dumpItem wEnvFailSplitKind "d" [] wPod).1
        (nsAllPath "d" wPod.ns) = some "P") ∧
    dirDumper.Dump wEnvFailObjects "d" [] (wPod :: [wSvc]) =
      ((dirDumper.Dump wEnvFailObjects "d"
          (dirDumper.dumpItem wEnvFailObjects "d" [] wPod).1 [wSvc]).1,
        (dirDumper.dumpItem wEnvFailObjects "d" [] wPod).2 ++
          (dirDumper.Dump wEnvFailObjects "d"
            (dirDumper.dumpItem wEnvFailObjects "d" [] wPod).1 [wSvc]).2) :=
  c2_error_isolation wEnvFailObjects wEnvFailSplitKind "d" wPod "P" "boom1" "boom2"
    [wSvc] rfl (by decide) (by decide) (by decide) (by decide) (by decide)
    (by decide) (by decide) (by decide) (by decide) (by decide) (by decide)
    (by decide)

/-- Claim C10: when JSON-encoding a record fails, the record is written to no
destination at all (the open-file cache handed to the rest of the page is the
unchanged incoming cache), the encoding failure is part of Dump's error
list, and every remaining record of the page is still processed. -/
theorem c10_encode_failure_isolated (env : FSEnv) (dir : String)
    (o : ObjectRecord) (e : String) (st : List (String × String))
    (rest : List ObjectRecord) (he : o.serialized = .error e) :
    dirDumper.Dump env dir st (o :: rest) =
      ((dirDumper.Dump env dir st rest).1,
        ("failed to encode object: " ++ e) :: (dirDumper.Dump env dir st rest).2) := by
  have hi : dirDumper.dumpItem env dir st o =
      (st, ["failed to encode object: " ++ e]) := by
    simp [dirDumper.dumpItem, he]
  simp [dirDumper.Dump, hi]

/-- Witness for C10: a record whose encoding fails, followed by a record that
is still dumped. -/
theorem c10_encode_failure_isolated_witness :
    dirDumper.Dump envOK "d" [] ((⟨"Pod", "ns1", .error "bad"⟩ : ObjectRecord) :: [wSvc]) =
      ((dirDumper.Dump envOK "d" [] [wSvc]).1,
        ("failed to encode object: " ++ "bad") ::
          (dirDumper.Dump envOK "d" [] [wSvc]).2) :=
  c10_encode_failure_isolated envOK "d" ⟨"Pod", "ns1", .error "bad"⟩ "bad" [] [wSvc] rfl

/-- The error lists accumulated by `runTypes` are the concatenation of every
type's own error list, in order. -/
theorem runTypes_errs
    (lister : GroupVersionResource → Nat → String → Except String UnstructuredList)
    (cb : UnstructuredList → Except String Unit) (batchSize fuel : Nat)
    (ts : List (String × APIResource)) :
    (runTypes lister cb batchSize fuel ts).2.2 =
      (ts.map (fun t => (perType lister cb batchSize fuel t.1 t.2).2.2)).flatten := by
  induction ts with
  | nil => rfl
  | cons t rest ih => simp [runTypes, ih]

theorem splitSlash_ne_nil (l : List Char) : splitSlash l ≠ [] := by
  cases l with
  | nil => simp [splitSlash]
  | cons c rest =>
    simp only [splitSlash]
    rcases h : splitSlash rest with _ | ⟨h1, t⟩
    · simp
    · by_cases hc : c = '/' <;> simp [hc]

theorem splitSlash_no_slash (l : List Char) (h : '/' ∉ l) : splitSlash l = [l] := by
  induction l with
  | nil => rfl
  | cons c rest ih =>
    simp only [List.mem_cons, not_or] at h
    obtain ⟨hc, hr⟩ := h
    have hc2 : c ≠ '/' := fun heq => hc heq.symm
    simp [splitSlash, ih hr, hc2]

theorem splitSlash_sep (xs ys : List Char) (h : '/' ∉ xs) :
    splitSlash (xs ++ '/' :: ys) = xs :: splitSlash ys := by
  induction xs with
  | nil =>
    simp only [List.nil_append, splitSlash]
    rcases hy : splitSlash ys with _ | ⟨h1, t⟩
    · exact absurd hy (splitSlash_ne_nil ys)
    · simp
  | cons c xs ih =>
    simp only [List.mem_cons, not_or] at h
    obtain ⟨hc, hr⟩ := h
    have hc2 : c ≠ '/' := fun heq => hc heq.symm
    simp [splitSlash, ih hr, hc2]

/-- Claim C8: groupVersionFromString parses a single-segment string as a bare
version with empty group and a two-segment string X/Y as group X, version Y;
the split is never empty, so these shapes are exhaustive and there is no
further fallback branch (a string with extra segments is still handled by
the second branch: group = first segment, version = second). -/
theorem c8_group_version_parsing :
    (∀ s v, slashSegments s = [v] → groupVersionFromString s = ⟨"", v⟩) ∧
    (∀ s g v r, slashSegments s = g :: v :: r → groupVersionFromString s = ⟨g, v⟩) ∧
    (∀ s, slashSegments s ≠ []) ∧
    (∀ v : String, '/' ∉ v.data → groupVersionFromString v = ⟨"", v⟩) ∧
    (∀ g v : String, '/' ∉ g.data → '/' ∉ v.data →
      groupVersionFromString (g ++ "/" ++ v) = ⟨g, v⟩) := by
  have hseg1 : ∀ v : String, '/' ∉ v.data → slashSegments v = [v] := by
    intro v hv
    simp [slashSegments, splitSlash_no_slash v.data hv]
  have hseg2 : ∀ g v : String, '/' ∉ g.data → '/' ∉ v.data →
      slashSegments (g ++ "/" ++ v) = [g, v] := by
    intro g v hg hv
    have hd : (g ++ "/" ++ v).data = g.data ++ '/' :: v.data := by
      simp [String.data_append]
    simp [slashSegments, hd, splitSlash_sep g.data v.data hg,
      splitSlash_no_slash v.data hv]
  refine ⟨?_, ?_, ?_, ?_, ?_⟩
  · intro s v h
    simp [groupVersionFromString, h]
  · intro s g v r h
    simp [groupVersionFromString, h]
  · intro s h
    exact splitSlash_ne_nil s.data (by simpa [slashSegments] using h)
  · intro v hv
    simp [groupVersionFromString, hseg1 v hv]
  · intro g v hg hv
    simp [groupVersionFromString, hseg2 g v hg hv]

/-- Witness for C8: the spec's two examples, apps/v1 and v1. -/
theorem c8_group_version_parsing_witness :
    groupVersionFromString ("apps" ++ "/" ++ "v1") = ⟨"apps", "v1"⟩ ∧
    groupVersionFromString "v1" = ⟨"", "v1"⟩ :=
  ⟨c8_group_version_parsing.2.2.2.2 "apps" "v1" (by decide) (by decide),
   c8_group_version_parsing.2.2.2.1 "v1" (by decide)⟩

/-- Claim C9: a resource type whose verb set lacks "list" produces no list
call at all (empty event trace), exactly the skip notice on the diagnostic
stream, and no error. -/
theorem c9_skip_non_listable
    (lister : GroupVersionResource → Nat → String → Except String UnstructuredList)
    (cb : UnstructuredList → Except String Unit) (batchSize fuel : Nat)
    (gv : String) (r : APIResource) (h : "list" ∉ r.verbs) :
    perType lister cb batchSize fuel gv r =
      ([],
       ["skipping " ++
          gvrToString ((groupVersionFromString gv).withResource r.name) ++
          ": no list verb"],
       []) := by
  simp [perType, h]

/-- Witness for C9: a watch-only resource type is skipped. -/
theorem c9_skip_non_listable_witness :
    perType (fun _ _ _ => .error "unused") (fun _ => .ok ()) 500 3 "apps/v1"
        ⟨"deployments", "Deployment", ["get", "watch"]⟩ =
      ([],
       ["skipping " ++
          gvrToString ((groupVersionFromString "apps/v1").withResource "deployments") ++
          ": no list verb"],
       []) :=
  c9_skip_non_listable (fun _ _ _ => .error "unused") (fun _ => .ok ()) 500 3
    "apps/v1" ⟨"deployments", "Deployment", ["get", "watch"]⟩ (by decide)

/-- Claim C5: when the list call for a type fails, the failure is recorded,
no further list call is issued for that type (a single list-call event, no
retry), and the remaining types are processed exactly as they would be on
their own. -/
theorem c5_list_failure_abandons_type
    (lister : GroupVersionResource → Nat → String → Except String UnstructuredList)
    (cb : UnstructuredList → Except String Unit) (batchSize fuel : Nat)
    (gv : String) (r : APIResource) (rest : List (String × APIResource)) (e : String)
    (hl : "list" ∈ r.verbs)
    (hf : lister ((groupVersionFromString gv).withResource r.name) batchSize "" =
      .error e) :
    perType lister cb batchSize (fuel + 1) gv r =
      ([.listCall ""],
       [],
       ["failed to list " ++
          gvrToString ((groupVersionFromString gv).withResource r.name) ++ ": " ++ e]) ∧
    runTypes lister cb batchSize (fuel + 1) ((gv, r) :: rest) =
      ((perType lister cb batchSize (fuel + 1) gv r).1 ++
          (runTypes lister cb batchSize (fuel + 1) rest).1,
        (perType lister cb batchSize (fuel + 1) gv r).2.1 ++
          (runTypes lister cb batchSize (fuel + 1) rest).2.1,
        (perType lister cb batchSize (fuel + 1) gv r).2.2 ++
          (runTypes lister cb batchSize (fuel + 1) rest).2.2) := by
  constructor
  · simp [perType, hl, paginateLoop, hf]
  · rfl

/-- Witness for C5: a listable type whose list call fails, followed by a
skipped type. -/
theorem c5_list_failure_abandons_type_witness :
    perType (fun _ _ _ => .error "server down") (fun _ => .ok ()) 500 3 "v1"
        ⟨"pods", "Pod", ["get", "list"]⟩ =
      ([.listCall ""],
       [],
       ["failed to list " ++
          gvrToString ((groupVersionFromString "v1").withResource "pods") ++
          ": " ++ "server down"]) ∧
    runTypes (fun _ _ _ => .error "server down") (fun _ => .ok ()) 500 3
        (("v1", ⟨"pods", "Pod", ["get", "list"]⟩) ::
          [("v1", ⟨"bindings", "Binding", ["create"]⟩)]) =
      ((perType (fun _ _ _ => .error "server down") (fun _ => .ok ()) 500 3 "v1"
          ⟨"pods", "Pod", ["get", "list"]⟩).1 ++
          (runTypes (fun _ _ _ => .error "server down") (fun _ => .ok ()) 500 3
            [("v1", ⟨"bindings", "Binding", ["create"]⟩)]).1,
        (perType (fun _ _ _ => .error "server down") (fun _ => .ok ()) 500 3 "v1"
          ⟨"pods", "Pod", ["get", "list"]⟩).2.1 ++
          (runTypes (fun _ _ _ => .error "server down") (fun _ => .ok ()) 500 3
            [("v1", ⟨"bindings", "Binding", ["create"]⟩)]).2.1,
        (perType (fun _ _ _ => .error "server down") (fun _ => .ok ()) 500 3 "v1"
          ⟨"pods", "Pod", ["get", "list"]⟩).2.2 ++
          (runTypes (fun _ _ _ => .error "server down") (fun _ => .ok ()) 500 3
            [("v1", ⟨"bindings", "Binding", ["create"]⟩)]).2.2) :=
  c5_list_failure_abandons_type (fun _ _ _ => .error "server down") (fun _ => .ok ())
    500 2 "v1" ⟨"pods", "Pod", ["get", "list"]⟩
    [("v1", ⟨"bindings", "Binding", ["create"]⟩)] "server down" (by decide) rfl

/-- Claim C7: all recoverable failures of all types are accumulated into one
combined error over the whole run; the combined error is absent exactly when
no type contributed a failure. -/
theorem c7_single_combined_error
    (lister : GroupVersionResource → Nat → String → Except String UnstructuredList)
    (cb : UnstructuredList → Except String Unit)
    (sprl : List APIResourceList) (batchSize fuel : Nat) :
    (discoverObjects lister cb sprl batchSize fuel).2.2 =
      combineErrs
        (((allTypes sprl).map
          (fun t => (perType lister cb batchSize fuel t.1 t.2).2.2)).flatten) ∧
    ((discoverObjects lister cb sprl batchSize fuel).2.2 = none ↔
      ((allTypes sprl).map
        (fun t => (perType lister cb batchSize fuel t.1 t.2).2.2)).flatten = []) := by
  have h := runTypes_errs lister cb batchSize fuel (allTypes sprl)
  constructor
  · simp [discoverObjects, h]
  · simp [discoverObjects, h, combineErrs_eq_none_iff]

theorem encodeCursor_length (i : Nat) : (encodeCursor i).length = i := by
  simp [encodeCursor, String.length]

theorem encodeCursor_zero : encodeCursor 0 = "" := rfl

theorem encodeCursor_ne_empty (i : Nat) (h : 1 ≤ i) : encodeCursor i ≠ "" := by
  intro hc
  have hl := congrArg String.length hc
  rw [encodeCursor_length] at hl
  simp [String.length] at hl
  omega

theorem ceilDiv_eq_zero (m batch : Nat) (hB : 1 ≤ batch) (h : m = 0) :
    ceilDiv m batch = 0 := by
  subst h
  rw [ceilDiv]
  exact Nat.div_eq_of_lt (by omega)

theorem one_le_ceilDiv (m batch : Nat) (hB : 1 ≤ batch) (hm : 1 ≤ m) :
    1 ≤ ceilDiv m batch := by
  rw [ceilDiv, Nat.le_div_iff_mul_le (by omega)]
  omega

theorem ceilDiv_le_one (m batch : Nat) (hB : 1 ≤ batch) (h : m ≤ batch) :
    ceilDiv m batch ≤ 1 := by
  rw [ceilDiv]
  have h2 := (Nat.div_lt_iff_lt_mul (show 0 < batch by omega)).mpr
    (show m + batch - 1 < 2 * batch by omega)
  omega

theorem ceilDiv_rec (m batch : Nat) (hB : 1 ≤ batch) (h : batch < m) :
    ceilDiv m batch = ceilDiv (m - batch) batch + 1 := by
  have h1 : m + batch - 1 = (m - 1) + batch := by omega
  have h2 : (m - batch) + batch - 1 = m - 1 := by omega
  rw [ceilDiv, ceilDiv, h1, h2, Nat.add_div_right _ (by omega)]

/-- Behaviour of the pagination loop against the collection-backed list
endpoint, from an arbitrary cursor position, given enough fuel: the number
of list calls is max 1 (ceil of remaining / batch), the pages delivered to
the sink concatenate to exactly the remaining collection, exactly the last
delivered page carries an empty continuation token, every list call is
followed by one sink call, and the accumulated errors are exactly the
per-page sink failures in order. -/
theorem paginate_serveCollection (objs : List ObjectRecord) (batch : Nat)
    (cb : UnstructuredList → Except String Unit) (res : GroupVersionResource)
    (hB : 1 ≤ batch) :
    ∀ fuel i evs errs, 1 ≤ fuel → objs.length ≤ i + fuel * batch →
      paginateLoop (fun _ b c => serveCollection objs b c) cb res batch fuel
        (encodeCursor i) = (evs, errs) →
      listCallCount evs = max 1 (ceilDiv (objs.length - i) batch) ∧
      ((sinkPages evs).map UnstructuredList.items).flatten = objs.drop i ∧
      (∃ ps0 pl, sinkPages evs = ps0 ++ [pl] ∧ pl.continueToken = "" ∧
        ∀ q ∈ ps0, q.continueToken ≠ "") ∧
      (sinkPages evs).length = listCallCount evs ∧
      errs = ((sinkPages evs).map (fun pg => dumpErrs res (cb pg))).flatten := by
  intro fuel
  induction fuel with
  | zero =>
    intro i evs errs h1 _ _
    omega
  | succ fuel ih =>
    intro i evs errs _ hlen hrun
    by_cases hlt : i + batch < objs.length
    · -- more items remain: the served page has a non-empty token, loop recurses
      have htok := encodeCursor_ne_empty (i + batch) (by omega)
      have hstep : paginateLoop (fun _ b c => serveCollection objs b c) cb res batch
          (fuel + 1) (encodeCursor i) =
          (.listCall (encodeCursor i) ::
             .sinkCall ⟨(objs.drop i).take batch, encodeCursor (i + batch)⟩ ::
             (paginateLoop (fun _ b c => serveCollection objs b c) cb res batch fuel
               (encodeCursor (i + batch))).1,
           dumpErrs res (cb ⟨(objs.drop i).take batch, encodeCursor (i + batch)⟩) ++
             (paginateLoop (fun _ b c => serveCollection objs b c) cb res batch fuel
               (encodeCursor (i + batch))).2) := by
        simp [paginateLoop, serveCollection, encodeCursor_length, hlt, htok]
      rw [hstep] at hrun
      have hmul : (fuel + 1) * batch = fuel * batch + batch := by ring
      have hfuel : 1 ≤ fuel := by
        rcases Nat.eq_zero_or_pos fuel with h0 | h1
        · subst h0
          omega
        · omega
      obtain ⟨hcount, hitems, ⟨ps0, pl, hps, hpl, hps0⟩, hlenp, herrs⟩ :=
        ih (i + batch)
          (paginateLoop (fun _ b c => serveCollection objs b c) cb res batch fuel
            (encodeCursor (i + batch))).1
          (paginateLoop (fun _ b c => serveCollection objs b c) cb res batch fuel
            (encodeCursor (i + batch))).2
          hfuel (by omega) rfl
      obtain ⟨hevs, herrs2⟩ := Prod.mk.injEq .. ▸ hrun
      subst hevs
      subst herrs2
      have hrec := ceilDiv_rec (objs.length - i) batch hB (by omega)
      have hone := one_le_ceilDiv (objs.length - i - batch) batch hB (by omega)
      refine ⟨?_, ?_, ?_, ?_, ?_⟩
      · simp only [listCallCount, hcount]
        have : objs.length - (i + batch) = objs.length - i - batch := by omega
        rw [this] at hcount ⊢
        omega
      · simp only [sinkPages, List.map_cons, List.flatten_cons, hitems]
        have hdd : List.drop batch (List.drop i objs) = List.drop (i + batch) objs := by
          rw [List.drop_drop]
        rw [← hdd]
        exact List.take_append_drop batch (List.drop i objs)
      · refine ⟨⟨(objs.drop i).take batch, encodeCursor (i + batch)⟩ :: ps0, pl, ?_, hpl, ?_⟩
        · simp [sinkPages, hps]
        · intro q hq
          rcases List.mem_cons.mp hq with h | h
          · subst h; exact htok
          · exact hps0 q h
      · simp [sinkPages, listCallCount, hlenp]
      · simp [sinkPages, herrs]
    · -- the collection is exhausted within this page: empty token, loop ends
      have hstep : paginateLoop (fun _ b c => serveCollection objs b c) cb res batch
          (fuel + 1) (encodeCursor i) =
          ([.listCall (encodeCursor i),
            .sinkCall ⟨(objs.drop i).take batch, ""⟩],
           dumpErrs res (cb ⟨(objs.drop i).take batch, ""⟩)) := by
        simp [paginateLoop, serveCollection, encodeCursor_length, hlt]
      rw [hstep] at hrun
      obtain ⟨hevs, herrs2⟩ := Prod.mk.injEq .. ▸ hrun
      subst hevs
      subst herrs2
      refine ⟨?_, ?_, ?_, ?_, ?_⟩
      · simp only [listCallCount]
        rcases Nat.eq_zero_or_pos (objs.length - i) with h0 | h1
        · rw [ceilDiv_eq_zero _ _ hB h0]
          omega
        · have := ceilDiv_le_one (objs.length - i) batch hB (by omega)
          have := one_le_ceilDiv (objs.length - i) batch hB (by omega)
          omega
      · simp only [sinkPages, List.map_cons, List.map_nil, List.flatten]
        have : (List.drop i objs).length ≤ batch := by
          rw [List.length_drop]
          omega
        simp [List.take_of_length_le this]
      · exact ⟨[], ⟨(objs.drop i).take batch, ""⟩, by simp [sinkPages], rfl, by simp⟩
      · simp [sinkPages, listCallCount]
      · simp [sinkPages]

/-- Claim C4: against a collection of N objects, for any batch size B ≥ 1 the
pagination loop (run from the empty cursor with ample fuel) issues exactly
max 1 (ceil N / B) list calls, the pages handed to the sink concatenate in
call order to exactly the full collection (no duplicates, no omissions),
and exactly the last returned page carries the empty continuation token
(the loop stops exactly at the empty cursor). -/
theorem c4_pagination_complete (objs : List ObjectRecord) (batch : Nat)
    (cb : UnstructuredList → Except String Unit) (res : GroupVersionResource)
    (hB : 1 ≤ batch) :
    listCallCount (paginateLoop (fun _ b c => serveCollection objs b c) cb res batch
        (objs.length + 1) "").1 = max 1 (ceilDiv objs.length batch) ∧
    ((sinkPages (paginateLoop (fun _ b c => serveCollection objs b c) cb res batch
        (objs.length + 1) "").1).map UnstructuredList.items).flatten = objs ∧
    (∃ ps0 pl,
      sinkPages (paginateLoop (fun _ b c => serveCollection objs b c) cb res batch
        (objs.length + 1) "").1 = ps0 ++ [pl] ∧ pl.continueToken = "" ∧
      ∀ q ∈ ps0, q.continueToken ≠ "") := by
  have hlen : objs.length ≤ 0 + (objs.length + 1) * batch := by
    have h1 := Nat.mul_le_mul_left (objs.length + 1) hB
    omega
  have h := paginate_serveCollection objs batch cb res hB (objs.length + 1) 0
    (paginateLoop (fun _ b c => serveCollection objs b c) cb res batch
      (objs.length + 1) "").1
    (paginateLoop (fun _ b c => serveCollection objs b c) cb res batch
      (objs.length + 1) "").2
    (by omega) hlen (by rw [encodeCursor_zero])
  obtain ⟨h1, h2, h3, _, _⟩ := h
  simp only [Nat.sub_zero] at h1
  simp only [List.drop_zero] at h2
  exact ⟨h1, h2, h3⟩

/-- Witness for C4: three objects with batch size two; the hypothesis B ≥ 1
is discharged concretely. -/
theorem c4_pagination_complete_witness :
    (1 : Nat) ≤ 2 ∧
    (listCallCount (paginateLoop (fun _ b c => serveCollection [wPod, wSvc, wPod] b c)
        (fun _ => .ok ()) ⟨"", "v1", "pods"⟩ 2 ([wPod, wSvc, wPod].length + 1) "").1 =
      max 1 (ceilDiv [wPod, wSvc, wPod].length 2) ∧
    ((sinkPages (paginateLoop (fun _ b c => serveCollection [wPod, wSvc, wPod] b c)
        (fun _ => .ok ()) ⟨"", "v1", "pods"⟩ 2 ([wPod, wSvc, wPod].length + 1) "").1).map
          UnstructuredList.items).flatten = [wPod, wSvc, wPod] ∧
    (∃ ps0 pl,
      sinkPages (paginateLoop (fun _ b c => serveCollection [wPod, wSvc, wPod] b c)
        (fun _ => .ok ()) ⟨"", "v1", "pods"⟩ 2 ([wPod, wSvc, wPod].length + 1) "").1 =
          ps0 ++ [pl] ∧ pl.continueToken = "" ∧
      ∀ q ∈ ps0, q.continueToken ≠ "")) :=
  ⟨by decide,
   c4_pagination_complete [wPod, wSvc, wPod] 2 (fun _ => .ok ()) ⟨"", "v1", "pods"⟩
     (by decide)⟩

/-- Claim C6: against the collection-backed endpoint every list call succeeds
and is followed by exactly one sink invocation (so the sink is called once
per page, even when the collection is empty and the single page has no
items), a failing sink contributes its recorded failure to the error list,
and pagination still drains the entire collection regardless of the sink's
results. -/
theorem c6_sink_failure_continues (objs : List ObjectRecord) (batch : Nat)
    (cb : UnstructuredList → Except String Unit) (res : GroupVersionResource)
    (hB : 1 ≤ batch) :
    (sinkPages (paginateLoop (fun _ b c => serveCollection objs b c) cb res batch
        (objs.length + 1) "").1).length =
      listCallCount (paginateLoop (fun _ b c => serveCollection objs b c) cb res batch
        (objs.length + 1) "").1 ∧
    ((sinkPages (paginateLoop (fun _ b c => serveCollection objs b c) cb res batch
        (objs.length + 1) "").1).map UnstructuredList.items).flatten = objs ∧
    (paginateLoop (fun _ b c => serveCollection objs b c) cb res batch
        (objs.length + 1) "").2 =
      ((sinkPages (paginateLoop (fun _ b c => serveCollection objs b c) cb res batch
        (objs.length + 1) "").1).map (fun pg => dumpErrs res (cb pg))).flatten := by
  have hlen : objs.length ≤ 0 + (objs.length + 1) * batch := by
    have h1 := Nat.mul_le_mul_left (objs.length + 1) hB
    omega
  have h := paginate_serveCollection objs batch cb res hB (objs.length + 1) 0
    (paginateLoop (fun _ b c => serveCollection objs b c) cb res batch
      (objs.length + 1) "").1
    (paginateLoop (fun _ b c => serveCollection objs b c) cb res batch
      (objs.length + 1) "").2
    (by omega) hlen (by rw [encodeCursor_zero])
  obtain ⟨_, h2, _, h4, h5⟩ := h
  simp only [List.drop_zero] at h2
  exact ⟨h4, h2, h5⟩

/-- Witness for C6: two objects, batch size one, a sink that always fails;
the hypothesis B ≥ 1 is discharged concretely. -/
theorem c6_sink_failure_continues_witness :
    (1 : Nat) ≤ 1 ∧
    ((sinkPages (paginateLoop (fun _ b c => serveCollection [wPod, wSvc] b c)
        (fun _ => .error "sink broken") ⟨"", "v1", "pods"⟩ 1
        ([wPod, wSvc].length + 1) "").1).length =
      listCallCount (paginateLoop (fun _ b c => serveCollection [wPod, wSvc] b c)
        (fun _ => .error "sink broken") ⟨"", "v1", "pods"⟩ 1
        ([wPod, wSvc].length + 1) "").1 ∧
    ((sinkPages (paginateLoop (fun _ b c => serveCollection [wPod, wSvc] b c)
        (fun _ => .error "sink broken") ⟨"", "v1", "pods"⟩ 1
        ([wPod, wSvc].length + 1) "").1).map UnstructuredList.items).flatten =
      [wPod, wSvc] ∧
    (paginateLoop (fun _ b c => serveCollection [wPod, wSvc] b c)
        (fun _ => .error "sink broken") ⟨"", "v1", "pods"⟩ 1
        ([wPod, wSvc].length + 1) "").2 =
      ((sinkPages (paginateLoop (fun _ b c => serveCollection [wPod, wSvc] b c)
        (fun _ => .error "sink broken") ⟨"", "v1", "pods"⟩ 1
        ([wPod, wSvc].length + 1) "").1).map
          (fun pg => dumpErrs ⟨"", "v1", "pods"⟩ ((fun _ => .error "sink broken") pg))).flatten) :=
  ⟨by decide,
   c6_sink_failure_continues [wPod, wSvc] 1 (fun _ => .error "sink broken")
     ⟨"", "v1", "pods"⟩ (by decide)⟩
